import Mathlib

/-!
Verification of the Whereby room API route (`src/app/api/whereby/route.ts`)
of the `video_chat` repository.

The route keeps a module-level `Map` from room names to stored room
records, exposes a `POST` handler (create / join a room, with a mock
fallback when the `WHEREBY_API_KEY` credential is absent or a provider
call fails) and a `GET` handler (room-existence check).

The embedding is shallow: the in-memory `Map` becomes an association
list, the two outbound `fetch` calls become an oracle (`ProviderEnv`)
describing the outcome of each call, `Date.now()` becomes one `now`
parameter per request, and the handler returns, besides the HTTP
response, the final registry and the list of network requests it issued.
-/

namespace VideoChat

/-- A stored room record: the value type of the module-level `rooms` map.
Fields mirror the object stored by `rooms.set` in `route.ts`
(`meetingId`, `hostRoomUrl`, `roomName`, `createdAt`). -/
structure RoomRecord where
  meetingId : String
  hostRoomUrl : String
  roomName : String
  createdAt : Nat
deriving Repr, DecidableEq

/-- The in-memory `rooms` map, embedded as an association list from
room names to records. -/
abbrev Registry := List (String × RoomRecord)

/-- `rooms.get(name)`: the stored record for `name`, if present. -/
def getRoom : Registry → String → Option RoomRecord
  | [], _ => none
  | (k, v) :: rest, n => if k = n then some v else getRoom rest n

/-- `rooms.has(name)`. -/
def hasRoom (reg : Registry) (n : String) : Bool :=
  (getRoom reg n).isSome

/-- `rooms.set(name, record)`: insert or overwrite unconditionally. -/
def setRoom : Registry → String → RoomRecord → Registry
  | [], n, r => [(n, r)]
  | (k, v) :: rest, n, r =>
      if k = n then (n, r) :: rest else (k, v) :: setRoom rest n r

/-- The JSON body of the `POST` request.  A missing `action` is `none`
(the destructuring default `action = 'create'` applies to it); a missing
`roomName` is embedded as `""` (both are falsy in the source's
`if (!roomName)` test). -/
structure PostInput where
  roomName : String
  participantName : Option String
  action : Option String
deriving Repr, DecidableEq

/-- The effective action: `const { action = 'create' } = ...`. -/
def actionOf (input : PostInput) : String :=
  input.action.getD "create"

/-- JavaScript `x || d` on an optional string: `none` and `""` are falsy. -/
def strOrD (s : Option String) (d : String) : String :=
  match s with
  | none => d
  | some v => if v = "" then d else v

/-- JavaScript falsiness of `process.env.WHEREBY_API_KEY`:
undefined or the empty string. -/
def strFalsy (s : Option String) : Bool :=
  match s with
  | none => true
  | some v => v = ""

/-- The successful body of the provider's meeting-creation call
(the fields of `roomData` the route reads). -/
structure MeetingData where
  meetingId : String
  hostRoomUrl : String
  roomName : String
deriving Repr, DecidableEq

/-- Outcomes of the (at most three) outbound `fetch` calls a single
`POST` request can make.  `none` covers both a non-ok HTTP response and
a thrown exception: the route treats the two identically (both reach
`createMockRoom`). -/
structure ProviderEnv where
  createMeetingOutcome : Option MeetingData
  joinTokenOutcome : Option String
  createTokenOutcome : Option String
deriving Repr, DecidableEq

/-- Per-request environment: the credential, the clock and the provider
oracle. -/
structure Env where
  apiKey : Option String
  now : Nat
  provider : ProviderEnv
deriving Repr, DecidableEq

/-- The JSON body of the meeting-creation request
(`fetch('https://api.whereby.com/v1/meetings', ...)`). -/
structure MeetingCreateBody where
  startDate : Nat
  endDate : Nat
  roomNamePrefix : String
  roomNamePattern : String
deriving Repr, DecidableEq

/-- The meeting-creation request body built by the route: start `now`,
end `now + 24h`, fixed prefix and pattern. -/
def buildMeetingCreateBody (now : Nat) : MeetingCreateBody :=
  { startDate := now
    endDate := now + 24 * 60 * 60 * 1000
    roomNamePrefix := "video-consultation"
    roomNamePattern := "uuid" }

/-- The JSON body of a token-issuance request
(`fetch('.../meetings/<id>/tokens', ...)`). -/
structure TokenRequestBody where
  displayName : String
  validFrom : Nat
  validUntil : Nat
deriving Repr, DecidableEq

/-- The token request body: `participantName || <defaultName>`,
valid from `now` until `now + 24h`. -/
def buildTokenRequestBody (participantName : Option String)
    (defaultName : String) (now : Nat) : TokenRequestBody :=
  { displayName := strOrD participantName defaultName
    validFrom := now
    validUntil := now + 24 * 60 * 60 * 1000 }

/-- An outbound network call made by the handler. -/
inductive NetworkRequest where
  | createMeeting (body : MeetingCreateBody)
  | issueToken (meetingId : String) (body : TokenRequestBody)
deriving Repr, DecidableEq

/-- The descriptor returned on the 200 path of `POST`. -/
structure RoomDescriptor where
  roomId : String
  roomUrl : String
  token : String
  roomName : String
  isExisting : Bool
  isMock : Bool
deriving Repr, DecidableEq

/-- The HTTP response of the `POST` handler. -/
inductive ApiResponse where
  | success (d : RoomDescriptor)
  | clientError (status : Nat) (errMsg : String)
deriving Repr, DecidableEq

/-- The descriptor of a 200 response, if any. -/
def ApiResponse.desc : ApiResponse → Option RoomDescriptor
  | .success d => some d
  | .clientError _ _ => none

/-- What a `POST` call produces: the response, the registry after the
call, and the network requests issued during it. -/
structure PostResult where
  response : ApiResponse
  registry : Registry
  requests : List NetworkRequest
deriving Repr, DecidableEq

/-- `createMockRoom(roomName, action)`: synthesize a mock record keyed
by the current time, store it (`rooms.set`), and return a mock
descriptor with `isExisting = (action === 'join')`. -/
def createMockRoom (roomName : String) (action : String) (now : Nat)
    (reg : Registry) : ApiResponse × Registry :=
  let meetingId := "mock-" ++ toString now
  let hostRoomUrl := "https://whereby.com/sanhome/" ++ roomName
  let stored : RoomRecord :=
    { meetingId := meetingId, hostRoomUrl := hostRoomUrl
      roomName := roomName, createdAt := now }
  (ApiResponse.success
    { roomId := meetingId
      roomUrl := hostRoomUrl
      token := "mock-token"
      roomName := roomName
      isExisting := action == "join"
      isMock := true },
   setRoom reg roomName stored)

/-- The record `createMockRoom` stores under `roomName`. -/
def mockStoredRecord (roomName : String) (now : Nat) : RoomRecord :=
  { meetingId := "mock-" ++ toString now
    hostRoomUrl := "https://whereby.com/sanhome/" ++ roomName
    roomName := roomName, createdAt := now }

/-- The "Create a new room" branch of `POST`: call the provider's
meeting creation; on failure fall back to `createMockRoom`; on success
store the real record, request a host token, and on token failure fall
back (overwriting the just-stored real record with the mock one). -/
def createPath (input : PostInput) (env : Env) (reg : Registry) : PostResult :=
  let createBody := buildMeetingCreateBody env.now
  match env.provider.createMeetingOutcome with
  | none =>
      let mock := createMockRoom input.roomName (actionOf input) env.now reg
      { response := mock.1, registry := mock.2
        requests := [NetworkRequest.createMeeting createBody] }
  | some roomData =>
      let reg1 := setRoom reg input.roomName
        { meetingId := roomData.meetingId
          hostRoomUrl := roomData.hostRoomUrl
          roomName := roomData.roomName
          createdAt := env.now }
      let tokenBody := buildTokenRequestBody input.participantName "Host" env.now
      let reqs := [NetworkRequest.createMeeting createBody,
                   NetworkRequest.issueToken roomData.meetingId tokenBody]
      match env.provider.createTokenOutcome with
      | none =>
          let mock := createMockRoom input.roomName (actionOf input) env.now reg1
          { response := mock.1, registry := mock.2, requests := reqs }
      | some tok =>
          { response := ApiResponse.success
              { roomId := roomData.meetingId
                roomUrl := roomData.hostRoomUrl
                token := tok
                roomName := roomData.roomName
                isExisting := false
                isMock := false }
            registry := reg1, requests := reqs }

/-- The `POST` handler.  Validates the name, short-circuits to mock mode
when the credential is falsy, joins an existing room when
`action === 'join' && rooms.has(roomName)`, and otherwise takes the
creation branch. -/
def POST (input : PostInput) (env : Env) (reg : Registry) : PostResult :=
  if input.roomName = "" then
    { response := ApiResponse.clientError 400 "Room name is required"
      registry := reg, requests := [] }
  else if strFalsy env.apiKey then
    let mock := createMockRoom input.roomName (actionOf input) env.now reg
    { response := mock.1, registry := mock.2, requests := [] }
  else if actionOf input = "join" then
    match getRoom reg input.roomName with
    | some existingRoom =>
        let tokenBody := buildTokenRequestBody input.participantName "Participant" env.now
        let reqs := [NetworkRequest.issueToken existingRoom.meetingId tokenBody]
        match env.provider.joinTokenOutcome with
        | some tok =>
            { response := ApiResponse.success
                { roomId := existingRoom.meetingId
                  roomUrl := existingRoom.hostRoomUrl
                  token := tok
                  roomName := existingRoom.roomName
                  isExisting := true
                  isMock := false }
              registry := reg, requests := reqs }
        | none =>
            let mock := createMockRoom input.roomName (actionOf input) env.now reg
            { response := mock.1, registry := mock.2, requests := reqs }
    | none => createPath input env reg
  else createPath input env reg

/-- The HTTP response of the `GET` handler. -/
inductive GetResponse where
  | okExists (roomExists : Bool)
  | clientError (status : Nat) (errMsg : String)
deriving Repr, DecidableEq

/-- The `GET` handler: `searchParams.get('roomName')` is `none` when the
parameter is absent; a `none` or empty value is falsy and yields 400;
otherwise 200 with `rooms.has(roomName)`.  The registry is returned
unchanged. -/
def GET (roomName : Option String) (reg : Registry) : GetResponse × Registry :=
  match roomName with
  | none => (GetResponse.clientError 400 "Room name is required", reg)
  | some n =>
      if n = "" then (GetResponse.clientError 400 "Room name is required", reg)
      else (GetResponse.okExists (hasRoom reg n), reg)

/-- A network request whose validity window is the fixed 24-hour span
anchored at `now`: meeting creation runs from `now` to `now + 24h`, and
token issuance is valid from `now` to `now + 24h`. -/
def requestWindowOk (now : Nat) : NetworkRequest → Prop
  | .createMeeting b => b.startDate = now ∧ b.endDate = now + 24 * 60 * 60 * 1000
  | .issueToken _ b => b.validFrom = now ∧ b.validUntil = now + 24 * 60 * 60 * 1000

/-! ### Registry lemmas -/

theorem getRoom_setRoom_self (reg : Registry) (n : String) (r : RoomRecord) :
    getRoom (setRoom reg n r) n = some r := by
  induction reg with
  | nil => simp [setRoom, getRoom]
  | cons kv rest ih =>
      obtain ⟨k, v⟩ := kv
      by_cases h : k = n
      · simp [setRoom, getRoom, h]
      · simp [setRoom, getRoom, h, ih]

theorem getRoom_setRoom_ne (reg : Registry) (n m : String) (r : RoomRecord)
    (h : m ≠ n) : getRoom (setRoom reg n r) m = getRoom reg m := by
  have hnm : ¬ n = m := fun hh => h hh.symm
  induction reg with
  | nil => simp [setRoom, getRoom, hnm]
  | cons kv rest ih =>
      obtain ⟨k, v⟩ := kv
      by_cases hk : k = n
      · subst hk
        simp [setRoom, getRoom, hnm]
      · simp [setRoom, getRoom, hk, ih]

theorem hasRoom_setRoom_mono (reg : Registry) (n m : String) (r : RoomRecord)
    (h : hasRoom reg m = true) : hasRoom (setRoom reg n r) m = true := by
  by_cases hmn : m = n
  · subst hmn
    simp [hasRoom, getRoom_setRoom_self]
  · simpa [hasRoom, getRoom_setRoom_ne reg n m r hmn] using h

/-! ### Path lemmas for the POST handler -/

/-- Empty room name: 400, nothing touched, no network call. -/
theorem POST_empty_name (input : PostInput) (env : Env) (reg : Registry)
    (h : input.roomName = "") :
    POST input env reg =
      { response := ApiResponse.clientError 400 "Room name is required"
        registry := reg, requests := [] } := by
  simp [POST, h]

/-- Falsy credential: straight to `createMockRoom`, no network call. -/
theorem POST_no_key (input : PostInput) (env : Env) (reg : Registry)
    (hname : input.roomName ≠ "") (hkey : strFalsy env.apiKey = true) :
    POST input env reg =
      { response := (createMockRoom input.roomName (actionOf input) env.now reg).1
        registry := (createMockRoom input.roomName (actionOf input) env.now reg).2
        requests := [] } := by
  simp [POST, hname, hkey]

/-- Join of an existing room with a successful token call. -/
theorem POST_join_success (input : PostInput) (env : Env) (reg : Registry)
    (e : RoomRecord) (tok : String)
    (hname : input.roomName ≠ "") (hkey : strFalsy env.apiKey = false)
    (haction : actionOf input = "join")
    (hget : getRoom reg input.roomName = some e)
    (htok : env.provider.joinTokenOutcome = some tok) :
    POST input env reg =
      { response := ApiResponse.success
          { roomId := e.meetingId, roomUrl := e.hostRoomUrl, token := tok
            roomName := e.roomName, isExisting := true, isMock := false }
        registry := reg
        requests := [NetworkRequest.issueToken e.meetingId
          (buildTokenRequestBody input.participantName "Participant" env.now)] } := by
  simp [POST, hname, hkey, haction, hget, htok]

/-- Join of an existing room with a failing token call: mock fallback. -/
theorem POST_join_token_fail (input : PostInput) (env : Env) (reg : Registry)
    (e : RoomRecord)
    (hname : input.roomName ≠ "") (hkey : strFalsy env.apiKey = false)
    (haction : actionOf input = "join")
    (hget : getRoom reg input.roomName = some e)
    (htok : env.provider.joinTokenOutcome = none) :
    POST input env reg =
      { response := (createMockRoom input.roomName (actionOf input) env.now reg).1
        registry := (createMockRoom input.roomName (actionOf input) env.now reg).2
        requests := [NetworkRequest.issueToken e.meetingId
          (buildTokenRequestBody input.participantName "Participant" env.now)] } := by
  simp [POST, hname, hkey, haction, hget, htok]

/-- The creation branch when meeting creation and token issuance both
succeed. -/
theorem createPath_success (input : PostInput) (env : Env) (reg : Registry)
    (md : MeetingData) (tok : String)
    (hc : env.provider.createMeetingOutcome = some md)
    (ht : env.provider.createTokenOutcome = some tok) :
    createPath input env reg =
      { response := ApiResponse.success
          { roomId := md.meetingId, roomUrl := md.hostRoomUrl, token := tok
            roomName := md.roomName, isExisting := false, isMock := false }
        registry := setRoom reg input.roomName
          { meetingId := md.meetingId, hostRoomUrl := md.hostRoomUrl
            roomName := md.roomName, createdAt := env.now }
        requests := [NetworkRequest.createMeeting (buildMeetingCreateBody env.now),
          NetworkRequest.issueToken md.meetingId
            (buildTokenRequestBody input.participantName "Host" env.now)] } := by
  simp [createPath, hc, ht]

/-- The creation branch when meeting creation succeeds but host-token
issuance fails: the real record is stored first, then `createMockRoom`
overwrites it and produces the response. -/
theorem createPath_token_fail (input : PostInput) (env : Env) (reg : Registry)
    (md : MeetingData)
    (hc : env.provider.createMeetingOutcome = some md)
    (ht : env.provider.createTokenOutcome = none) :
    createPath input env reg =
      { response := (createMockRoom input.roomName (actionOf input) env.now
          (setRoom reg input.roomName
            { meetingId := md.meetingId, hostRoomUrl := md.hostRoomUrl
              roomName := md.roomName, createdAt := env.now })).1
        registry := (createMockRoom input.roomName (actionOf input) env.now
          (setRoom reg input.roomName
            { meetingId := md.meetingId, hostRoomUrl := md.hostRoomUrl
              roomName := md.roomName, createdAt := env.now })).2
        requests := [NetworkRequest.createMeeting (buildMeetingCreateBody env.now),
          NetworkRequest.issueToken md.meetingId
            (buildTokenRequestBody input.participantName "Host" env.now)] } := by
  simp [createPath, hc, ht]

/-- The creation branch when meeting creation fails: mock fallback. -/
theorem createPath_meeting_fail (input : PostInput) (env : Env) (reg : Registry)
    (hc : env.provider.createMeetingOutcome = none) :
    createPath input env reg =
      { response := (createMockRoom input.roomName (actionOf input) env.now reg).1
        registry := (createMockRoom input.roomName (actionOf input) env.now reg).2
        requests := [NetworkRequest.createMeeting (buildMeetingCreateBody env.now)] } := by
  simp [createPath, hc]

/-- With a non-empty name and a present credential, a non-join action
takes the creation branch. -/
theorem POST_create_action (input : PostInput) (env : Env) (reg : Registry)
    (hname : input.roomName ≠ "") (hkey : strFalsy env.apiKey = false)
    (haction : actionOf input ≠ "join") :
    POST input env reg = createPath input env reg := by
  simp [POST, hname, hkey, haction]

/-- With a non-empty name and a present credential, a join on an absent
room also takes the creation branch. -/
theorem POST_join_absent (input : PostInput) (env : Env) (reg : Registry)
    (hname : input.roomName ≠ "") (hkey : strFalsy env.apiKey = false)
    (hget : getRoom reg input.roomName = none) :
    POST input env reg = createPath input env reg := by
  by_cases haction : actionOf input = "join"
  · simp [POST, hname, hkey, haction, hget]
  · simp [POST, hname, hkey, haction]

/-! ### Claim theorems -/

/-- C4: a POST with an empty (or missing) room name returns status 400
with body error "Room name is required", leaves the registry untouched
and issues no provider request, regardless of action or participant
name. -/
theorem C4_empty_name_rejected (input : PostInput) (env : Env) (reg : Registry)
    (h : input.roomName = "") :
    (POST input env reg).response = ApiResponse.clientError 400 "Room name is required" ∧
    (POST input env reg).registry = reg ∧
    (POST input env reg).requests = [] := by
  rw [POST_empty_name input env reg h]
  exact ⟨rfl, rfl, rfl⟩

theorem C4_empty_name_rejected_witness :
    (POST ⟨"", some "Alice", some "join"⟩ ⟨some "k", 0, ⟨none, none, none⟩⟩
        [] ).response = ApiResponse.clientError 400 "Room name is required" ∧
    (POST ⟨"", some "Alice", some "join"⟩ ⟨some "k", 0, ⟨none, none, none⟩⟩
        [] ).registry = [] ∧
    (POST ⟨"", some "Alice", some "join"⟩ ⟨some "k", 0, ⟨none, none, none⟩⟩
        [] ).requests = [] :=
  C4_empty_name_rejected ⟨"", some "Alice", some "join"⟩
    ⟨some "k", 0, ⟨none, none, none⟩⟩ [] rfl

/-- C3: with a non-empty room name and an absent (falsy) credential, the
POST performs no network call, returns a success descriptor with
`isMock = true` and `isExisting = (action == "join")`, and still writes
the fallback record into the registry under that name. -/
theorem C3_no_key_mock (input : PostInput) (env : Env) (reg : Registry)
    (hname : input.roomName ≠ "") (hkey : strFalsy env.apiKey = true) :
    (POST input env reg).requests = [] ∧
    (POST input env reg).response = ApiResponse.success
      { roomId := "mock-" ++ toString env.now
        roomUrl := "https://whereby.com/sanhome/" ++ input.roomName
        token := "mock-token"
        roomName := input.roomName
        isExisting := actionOf input == "join"
        isMock := true } ∧
    getRoom (POST input env reg).registry input.roomName =
      some (mockStoredRecord input.roomName env.now) := by
  rw [POST_no_key input env reg hname hkey]
  refine ⟨rfl, rfl, ?_⟩
  show getRoom (setRoom reg input.roomName (mockStoredRecord input.roomName env.now))
    input.roomName = some (mockStoredRecord input.roomName env.now)
  exact getRoom_setRoom_self reg input.roomName _

theorem C3_no_key_mock_witness :
    (POST ⟨"room1", none, some "join"⟩ ⟨none, 5, ⟨none, none, none⟩⟩ []).requests = [] ∧
    (POST ⟨"room1", none, some "join"⟩ ⟨none, 5, ⟨none, none, none⟩⟩ []).response =
      ApiResponse.success
        { roomId := "mock-" ++ toString 5
          roomUrl := "https://whereby.com/sanhome/" ++ "room1"
          token := "mock-token"
          roomName := "room1"
          isExisting := actionOf ⟨"room1", none, some "join"⟩ == "join"
          isMock := true } ∧
    getRoom (POST ⟨"room1", none, some "join"⟩ ⟨none, 5, ⟨none, none, none⟩⟩ []).registry
        "room1" = some (mockStoredRecord "room1" 5) :=
  C3_no_key_mock ⟨"room1", none, some "join"⟩ ⟨none, 5, ⟨none, none, none⟩⟩ []
    (by decide) rfl

/-- C7: for every non-empty room name, the fallback descriptor's roomUrl
is the fixed local pattern `https://whereby.com/sanhome/<name>` — hence
contains the requested name as a substring — and its token is the fixed
sentinel "mock-token". -/
theorem C7_fallback_url_pattern (name action : String) (now : Nat) (reg : Registry)
    (hname : name ≠ "") :
    ((createMockRoom name action now reg).1.desc.map RoomDescriptor.roomUrl) =
      some ("https://whereby.com/sanhome/" ++ name) ∧
    List.IsInfix name.data ("https://whereby.com/sanhome/" ++ name).data ∧
    ((createMockRoom name action now reg).1.desc.map RoomDescriptor.token) =
      some "mock-token" := by
  refine ⟨rfl, ⟨"https://whereby.com/sanhome/".data, [], ?_⟩, rfl⟩
  simp

theorem C7_fallback_url_pattern_witness :
    ((createMockRoom "x" "create" 0 []).1.desc.map RoomDescriptor.roomUrl) =
      some ("https://whereby.com/sanhome/" ++ "x") ∧
    List.IsInfix ("x" : String).data ("https://whereby.com/sanhome/" ++ "x").data ∧
    ((createMockRoom "x" "create" 0 []).1.desc.map RoomDescriptor.token) =
      some "mock-token" :=
  C7_fallback_url_pattern "x" "create" 0 [] (by decide)

/-- Every request issued by the creation branch uses the 24-hour window
anchored at `env.now`. -/
theorem createPath_window (input : PostInput) (env : Env) (reg : Registry)
    (req : NetworkRequest) (hreq : req ∈ (createPath input env reg).requests) :
    requestWindowOk env.now req := by
  rcases hc : env.provider.createMeetingOutcome with _ | md
  · rw [createPath_meeting_fail input env reg hc] at hreq
    simp at hreq
    subst hreq
    exact ⟨rfl, rfl⟩
  · rcases ht : env.provider.createTokenOutcome with _ | tok
    · rw [createPath_token_fail input env reg md hc ht] at hreq
      simp at hreq
      rcases hreq with h | h <;> subst h <;> exact ⟨rfl, rfl⟩
    · rw [createPath_success input env reg md tok hc ht] at hreq
      simp at hreq
      rcases hreq with h | h <;> subst h <;> exact ⟨rfl, rfl⟩

/-- C8: every meeting-creation request has start = now and end = now +
24h, and every token-issuance request is valid from now to now + 24h. -/
theorem C8_validity_window (input : PostInput) (env : Env) (reg : Registry)
    (req : NetworkRequest) (hreq : req ∈ (POST input env reg).requests) :
    requestWindowOk env.now req := by
  by_cases h1 : input.roomName = ""
  · rw [POST_empty_name input env reg h1] at hreq
    simp at hreq
  by_cases h2 : strFalsy env.apiKey = true
  · rw [POST_no_key input env reg h1 h2] at hreq
    simp at hreq
  have hkey : strFalsy env.apiKey = false := Bool.eq_false_iff.mpr h2
  by_cases h3 : actionOf input = "join"
  · rcases hget : getRoom reg input.roomName with _ | e
    · rw [POST_join_absent input env reg h1 hkey hget] at hreq
      exact createPath_window input env reg req hreq
    · rcases htok : env.provider.joinTokenOutcome with _ | tok
      · rw [POST_join_token_fail input env reg e h1 hkey h3 hget htok] at hreq
        simp at hreq
        subst hreq
        exact ⟨rfl, rfl⟩
      · rw [POST_join_success input env reg e tok h1 hkey h3 hget htok] at hreq
        simp at hreq
        subst hreq
        exact ⟨rfl, rfl⟩
  · rw [POST_create_action input env reg h1 hkey h3] at hreq
    exact createPath_window input env reg req hreq

theorem C8_validity_window_witness :
    requestWindowOk 7 (NetworkRequest.createMeeting (buildMeetingCreateBody 7)) :=
  C8_validity_window ⟨"r", none, none⟩ ⟨some "k", 7, ⟨none, none, none⟩⟩ []
    (NetworkRequest.createMeeting (buildMeetingCreateBody 7)) (by decide)

/-- The registry after the creation branch still holds every name it
held before. -/
theorem createPath_registry_mono (input : PostInput) (env : Env) (reg : Registry)
    (n : String) (h : hasRoom reg n = true) :
    hasRoom (createPath input env reg).registry n = true := by
  rcases hc : env.provider.createMeetingOutcome with _ | md
  · rw [createPath_meeting_fail input env reg hc]
    show hasRoom (setRoom reg input.roomName (mockStoredRecord input.roomName env.now))
      n = true
    exact hasRoom_setRoom_mono reg input.roomName n _ h
  · rcases ht : env.provider.createTokenOutcome with _ | tok
    · rw [createPath_token_fail input env reg md hc ht]
      show hasRoom (setRoom (setRoom reg input.roomName
        { meetingId := md.meetingId, hostRoomUrl := md.hostRoomUrl
          roomName := md.roomName, createdAt := env.now })
        input.roomName (mockStoredRecord input.roomName env.now)) n = true
      exact hasRoom_setRoom_mono _ input.roomName n _
        (hasRoom_setRoom_mono reg input.roomName n _ h)
    · rw [createPath_success input env reg md tok hc ht]
      exact hasRoom_setRoom_mono reg input.roomName n _ h

/-- C9: registry growth is monotone — a POST never removes a present
name, a GET never changes the registry, and a registry write overwrites
unconditionally (last-writer-wins). -/
theorem C9_registry_monotone (input : PostInput) (env : Env) (reg : Registry)
    (n : String) (r : RoomRecord) (q : Option String)
    (h : hasRoom reg n = true) :
    hasRoom (POST input env reg).registry n = true ∧
    (GET q reg).2 = reg ∧
    getRoom (setRoom reg n r) n = some r := by
  refine ⟨?_, ?_, getRoom_setRoom_self reg n r⟩
  · by_cases h1 : input.roomName = ""
    · rw [POST_empty_name input env reg h1]
      exact h
    by_cases h2 : strFalsy env.apiKey = true
    · rw [POST_no_key input env reg h1 h2]
      show hasRoom (setRoom reg input.roomName (mockStoredRecord input.roomName env.now))
        n = true
      exact hasRoom_setRoom_mono reg input.roomName n _ h
    have hkey : strFalsy env.apiKey = false := Bool.eq_false_iff.mpr h2
    by_cases h3 : actionOf input = "join"
    · rcases hget : getRoom reg input.roomName with _ | e
      · rw [POST_join_absent input env reg h1 hkey hget]
        exact createPath_registry_mono input env reg n h
      · rcases htok : env.provider.joinTokenOutcome with _ | tok
        · rw [POST_join_token_fail input env reg e h1 hkey h3 hget htok]
          show hasRoom (setRoom reg input.roomName
            (mockStoredRecord input.roomName env.now)) n = true
          exact hasRoom_setRoom_mono reg input.roomName n _ h
        · rw [POST_join_success input env reg e tok h1 hkey h3 hget htok]
          exact h
    · rw [POST_create_action input env reg h1 hkey h3]
      exact createPath_registry_mono input env reg n h
  · rcases q with _ | s
    · rfl
    · by_cases hs : s = "" <;> simp [GET, hs]

theorem C9_registry_monotone_witness :
    hasRoom (POST ⟨"other", none, none⟩ ⟨none, 9, ⟨none, none, none⟩⟩
        [("kept", ⟨"m1", "https://provider/m1", "kept", 0⟩)]).registry "kept" = true ∧
    (GET (some "kept") [("kept", ⟨"m1", "https://provider/m1", "kept", 0⟩)]).2 =
      [("kept", ⟨"m1", "https://provider/m1", "kept", 0⟩)] ∧
    getRoom (setRoom [("kept", ⟨"m1", "https://provider/m1", "kept", 0⟩)] "kept"
        ⟨"m2", "https://provider/m2", "kept", 1⟩) "kept" =
      some ⟨"m2", "https://provider/m2", "kept", 1⟩ :=
  C9_registry_monotone ⟨"other", none, none⟩ ⟨none, 9, ⟨none, none, none⟩⟩
    [("kept", ⟨"m1", "https://provider/m1", "kept", 0⟩)] "kept"
    ⟨"m2", "https://provider/m2", "kept", 1⟩ (some "kept") (by decide)

/-- C5: with a non-empty name and a present credential, when the
meeting-creation call fails the POST still returns a 200 descriptor
whose roomId, roomUrl and token are all populated (non-empty) with
`isMock = true`; no error status is propagated. -/
theorem C5_create_fail_degrades (input : PostInput) (env : Env) (reg : Registry)
    (hname : input.roomName ≠ "") (hkey : strFalsy env.apiKey = false)
    (hc : env.provider.createMeetingOutcome = none)
    (hpath : actionOf input = "join" → getRoom reg input.roomName = none) :
    (POST input env reg).response = ApiResponse.success
      { roomId := "mock-" ++ toString env.now
        roomUrl := "https://whereby.com/sanhome/" ++ input.roomName
        token := "mock-token"
        roomName := input.roomName
        isExisting := actionOf input == "join"
        isMock := true } ∧
    ("mock-" ++ toString env.now) ≠ "" ∧
    ("https://whereby.com/sanhome/" ++ input.roomName) ≠ "" ∧
    ("mock-token" : String) ≠ "" := by
  have hne : ∀ p t : String, 0 < p.length → (p ++ t) ≠ "" := by
    intro p t hp hcontra
    have hlen := congrArg String.length hcontra
    rw [String.length_append] at hlen
    have h0 : ("" : String).length = 0 := rfl
    rw [h0] at hlen
    omega
  have hpost : POST input env reg = createPath input env reg := by
    by_cases h3 : actionOf input = "join"
    · exact POST_join_absent input env reg hname hkey (hpath h3)
    · exact POST_create_action input env reg hname hkey h3
  rw [hpost, createPath_meeting_fail input env reg hc]
  exact ⟨rfl, hne "mock-" (toString env.now) (by decide),
    hne "https://whereby.com/sanhome/" input.roomName (by decide), by decide⟩

theorem C5_create_fail_degrades_witness :
    (POST ⟨"r", none, none⟩ ⟨some "k", 3, ⟨none, none, none⟩⟩ []).response =
      ApiResponse.success
        { roomId := "mock-" ++ toString 3
          roomUrl := "https://whereby.com/sanhome/" ++ "r"
          token := "mock-token"
          roomName := "r"
          isExisting := actionOf ⟨"r", none, none⟩ == "join"
          isMock := true } ∧
    ("mock-" ++ toString 3) ≠ "" ∧
    ("https://whereby.com/sanhome/" ++ "r") ≠ "" ∧
    ("mock-token" : String) ≠ "" :=
  C5_create_fail_degrades ⟨"r", none, none⟩ ⟨some "k", 3, ⟨none, none, none⟩⟩ []
    (by decide) rfl rfl (by decide)

/-- C1: with the provider succeeding, a create POST followed by a join
POST for the same non-empty name yields `isExisting = false` then
`isExisting = true`, and both descriptors carry the same roomId. -/
theorem C1_create_then_join (name : String) (pn1 pn2 : Option String)
    (env1 env2 : Env) (reg : Registry) (md : MeetingData) (tok1 tok2 : String)
    (hname : name ≠ "")
    (hk1 : strFalsy env1.apiKey = false) (hk2 : strFalsy env2.apiKey = false)
    (hc : env1.provider.createMeetingOutcome = some md)
    (ht1 : env1.provider.createTokenOutcome = some tok1)
    (ht2 : env2.provider.joinTokenOutcome = some tok2) :
    ((POST ⟨name, pn1, some "create"⟩ env1 reg).response.desc.map
        RoomDescriptor.isExisting = some false) ∧
    ((POST ⟨name, pn2, some "join"⟩ env2
        (POST ⟨name, pn1, some "create"⟩ env1 reg).registry).response.desc.map
        RoomDescriptor.isExisting = some true) ∧
    ((POST ⟨name, pn1, some "create"⟩ env1 reg).response.desc.map
        RoomDescriptor.roomId =
      (POST ⟨name, pn2, some "join"⟩ env2
        (POST ⟨name, pn1, some "create"⟩ env1 reg).registry).response.desc.map
        RoomDescriptor.roomId) := by
  have hpost1 : POST ⟨name, pn1, some "create"⟩ env1 reg =
      createPath ⟨name, pn1, some "create"⟩ env1 reg :=
    POST_create_action ⟨name, pn1, some "create"⟩ env1 reg hname hk1
      (by
        intro hcontra
        have hcc : ("create" : String) = "join" := hcontra
        exact absurd hcc (by decide))
  rw [hpost1, createPath_success ⟨name, pn1, some "create"⟩ env1 reg md tok1 hc ht1]
  have hget : getRoom (setRoom reg name
      { meetingId := md.meetingId, hostRoomUrl := md.hostRoomUrl
        roomName := md.roomName, createdAt := env1.now }) name =
      some { meetingId := md.meetingId, hostRoomUrl := md.hostRoomUrl
             roomName := md.roomName, createdAt := env1.now } :=
    getRoom_setRoom_self reg name _
  rw [POST_join_success ⟨name, pn2, some "join"⟩ env2 _ _ tok2 hname hk2 rfl hget ht2]
  exact ⟨rfl, rfl, rfl⟩

theorem C1_create_then_join_witness :
    ((POST ⟨"demo", some "Alice", some "create"⟩
        ⟨some "k", 0, ⟨some ⟨"m1", "https://provider/m1", "demo"⟩, none, some "t1"⟩⟩
        []).response.desc.map RoomDescriptor.isExisting = some false) ∧
    ((POST ⟨"demo", some "Bob", some "join"⟩ ⟨some "k", 1, ⟨none, some "t2", none⟩⟩
        (POST ⟨"demo", some "Alice", some "create"⟩
          ⟨some "k", 0, ⟨some ⟨"m1", "https://provider/m1", "demo"⟩, none, some "t1"⟩⟩
          []).registry).response.desc.map RoomDescriptor.isExisting = some true) ∧
    ((POST ⟨"demo", some "Alice", some "create"⟩
        ⟨some "k", 0, ⟨some ⟨"m1", "https://provider/m1", "demo"⟩, none, some "t1"⟩⟩
        []).response.desc.map RoomDescriptor.roomId =
      (POST ⟨"demo", some "Bob", some "join"⟩ ⟨some "k", 1, ⟨none, some "t2", none⟩⟩
        (POST ⟨"demo", some "Alice", some "create"⟩
          ⟨some "k", 0, ⟨some ⟨"m1", "https://provider/m1", "demo"⟩, none, some "t1"⟩⟩
          []).registry).response.desc.map RoomDescriptor.roomId) :=
  C1_create_then_join "demo" (some "Alice") (some "Bob")
    ⟨some "k", 0, ⟨some ⟨"m1", "https://provider/m1", "demo"⟩, none, some "t1"⟩⟩
    ⟨some "k", 1, ⟨none, some "t2", none⟩⟩ [] ⟨"m1", "https://provider/m1", "demo"⟩
    "t1" "t2" (by decide) rfl rfl rfl rfl rfl

/-- C2 counterexample: joining room "r", whose real record is in the
registry, while token issuance fails returns a mock descriptor AND
overwrites the registry entry — the stored record no longer equals the
original real record, contradicting "the registry entry is left
unchanged". -/
theorem C2_join_fail_overwrites_cex :
    ((POST ⟨"r", none, some "join"⟩ ⟨some "k", 5, ⟨none, none, none⟩⟩
        [("r", ⟨"m1", "https://provider/m1", "r", 0⟩)]).response.desc.map
        RoomDescriptor.isMock = some true) ∧
    getRoom (POST ⟨"r", none, some "join"⟩ ⟨some "k", 5, ⟨none, none, none⟩⟩
        [("r", ⟨"m1", "https://provider/m1", "r", 0⟩)]).registry "r" ≠
      some ⟨"m1", "https://provider/m1", "r", 0⟩ := by
  decide

/-- C2 amended: on a join of an existing record with failing token
issuance, the call returns a fallback descriptor with `isMock = true`
and the registry entry for that name IS overwritten with the fallback
record (mock meetingId and fallback URL replace the stored values). -/
theorem C2_join_fail_overwrites (input : PostInput) (env : Env) (reg : Registry)
    (e : RoomRecord)
    (hname : input.roomName ≠ "") (hkey : strFalsy env.apiKey = false)
    (haction : actionOf input = "join")
    (hget : getRoom reg input.roomName = some e)
    (htok : env.provider.joinTokenOutcome = none) :
    ((POST input env reg).response.desc.map RoomDescriptor.isMock = some true) ∧
    getRoom (POST input env reg).registry input.roomName =
      some (mockStoredRecord input.roomName env.now) := by
  rw [POST_join_token_fail input env reg e hname hkey haction hget htok]
  refine ⟨rfl, ?_⟩
  show getRoom (setRoom reg input.roomName (mockStoredRecord input.roomName env.now))
    input.roomName = some (mockStoredRecord input.roomName env.now)
  exact getRoom_setRoom_self reg input.roomName _

theorem C2_join_fail_overwrites_witness :
    ((POST ⟨"r", none, some "join"⟩ ⟨some "k", 5, ⟨none, none, none⟩⟩
        [("r", ⟨"m1", "https://provider/m1", "r", 0⟩)]).response.desc.map
        RoomDescriptor.isMock = some true) ∧
    getRoom (POST ⟨"r", none, some "join"⟩ ⟨some "k", 5, ⟨none, none, none⟩⟩
        [("r", ⟨"m1", "https://provider/m1", "r", 0⟩)]).registry "r" =
      some (mockStoredRecord "r" 5) :=
  C2_join_fail_overwrites ⟨"r", none, some "join"⟩ ⟨some "k", 5, ⟨none, none, none⟩⟩
    [("r", ⟨"m1", "https://provider/m1", "r", 0⟩)] ⟨"m1", "https://provider/m1", "r", 0⟩
    (by decide) rfl rfl (by decide) rfl

/-- C6 counterexample: with the credential absent, a join of a name with
no registry record returns `isExisting = true` although no record was
present before the call — `isExisting` does not reflect prior registry
membership. -/
theorem C6_isExisting_cex :
    ((POST ⟨"r", none, some "join"⟩ ⟨none, 5, ⟨none, none, none⟩⟩ []).response.desc.map
        RoomDescriptor.isExisting = some true) ∧
    hasRoom ([] : Registry) "r" = false := by
  decide

/-- C6 amended: for every 200 descriptor, `isExisting = true` iff the
requested action was "join" AND (the descriptor is mock, or a record
for the name was present before the call).  In particular mock
responses take `isExisting` from the action alone, and the non-mock
create path reports `isExisting = false` even if a record existed. -/
theorem C6_isExisting_characterization (input : PostInput) (env : Env)
    (reg : Registry) (d : RoomDescriptor)
    (hname : input.roomName ≠ "")
    (hd : (POST input env reg).response = ApiResponse.success d) :
    (d.isExisting = true ↔
      (actionOf input = "join" ∧
        (d.isMock = true ∨ hasRoom reg input.roomName = true))) := by
  by_cases h2 : strFalsy env.apiKey = true
  · rw [POST_no_key input env reg hname h2] at hd
    simp [createMockRoom] at hd
    rw [← hd]
    simp [beq_iff_eq]
  have hkey : strFalsy env.apiKey = false := Bool.eq_false_iff.mpr h2
  have hcreate : (POST input env reg = createPath input env reg) →
      (actionOf input = "join" → getRoom reg input.roomName = none) →
      (d.isExisting = true ↔
        (actionOf input = "join" ∧
          (d.isMock = true ∨ hasRoom reg input.roomName = true))) := by
    intro hpost habsent
    rw [hpost] at hd
    rcases hc : env.provider.createMeetingOutcome with _ | md
    · rw [createPath_meeting_fail input env reg hc] at hd
      simp [createMockRoom] at hd
      rw [← hd]
      simp [beq_iff_eq]
    · rcases ht : env.provider.createTokenOutcome with _ | tok
      · rw [createPath_token_fail input env reg md hc ht] at hd
        simp [createMockRoom] at hd
        rw [← hd]
        simp [beq_iff_eq]
      · rw [createPath_success input env reg md tok hc ht] at hd
        simp at hd
        rw [← hd]
        constructor
        · intro hfalse
          simp at hfalse
        · rintro ⟨hj, hmock | hpresent⟩
          · simp at hmock
          · simp [hasRoom, habsent hj] at hpresent
  by_cases h3 : actionOf input = "join"
  · rcases hget : getRoom reg input.roomName with _ | e
    · exact hcreate (POST_join_absent input env reg hname hkey hget)
        (fun _ => hget)
    · have hpresent : hasRoom reg input.roomName = true := by
        simp [hasRoom, hget]
      rcases htok : env.provider.joinTokenOutcome with _ | tok
      · rw [POST_join_token_fail input env reg e hname hkey h3 hget htok] at hd
        simp [createMockRoom] at hd
        rw [← hd]
        simp [beq_iff_eq, h3, hpresent]
      · rw [POST_join_success input env reg e tok hname hkey h3 hget htok] at hd
        simp at hd
        rw [← hd]
        simp [h3, hpresent]
  · exact hcreate (POST_create_action input env reg hname hkey h3)
      (fun hj => absurd hj h3)

theorem C6_isExisting_characterization_witness :
    (({ roomId := "mock-" ++ toString 5
        roomUrl := "https://whereby.com/sanhome/" ++ "r"
        token := "mock-token"
        roomName := "r"
        isExisting := true
        isMock := true } : RoomDescriptor).isExisting = true ↔
      (actionOf ⟨"r", none, some "join"⟩ = "join" ∧
        (({ roomId := "mock-" ++ toString 5
            roomUrl := "https://whereby.com/sanhome/" ++ "r"
            token := "mock-token"
            roomName := "r"
            isExisting := true
            isMock := true } : RoomDescriptor).isMock = true ∨
          hasRoom ([] : Registry) "r" = true))) :=
  C6_isExisting_characterization ⟨"r", none, some "join"⟩
    ⟨none, 5, ⟨none, none, none⟩⟩ []
    { roomId := "mock-" ++ toString 5
      roomUrl := "https://whereby.com/sanhome/" ++ "r"
      token := "mock-token"
      roomName := "r"
      isExisting := true
      isMock := true } (by decide) (by decide)

/-- C10 counterexample: a GET whose roomName parameter is present but
empty returns 400, not the 200 existence response the claim promises
for every present parameter. -/
theorem C10_get_empty_param_cex :
    (GET (some "") []).1 = GetResponse.clientError 400 "Room name is required" ∧
    (GET (some "") []).1 ≠ GetResponse.okExists (hasRoom ([] : Registry) "") := by
  decide

/-- C10 amended: a GET whose roomName parameter is absent OR empty
returns 400 with "Room name is required"; when the parameter is present
and non-empty it returns 200 with `exists` reflecting registry
membership, and in all cases the registry is unchanged. -/
theorem C10_get_behavior (q : Option String) (reg : Registry) :
    (q = none ∨ q = some "" →
      GET q reg = (GetResponse.clientError 400 "Room name is required", reg)) ∧
    (∀ n, q = some n → n ≠ "" →
      GET q reg = (GetResponse.okExists (hasRoom reg n), reg)) := by
  constructor
  · rintro (rfl | rfl) <;> simp [GET]
  · rintro n rfl hn
    simp [GET, hn]

theorem C10_get_behavior_witness :
    GET none [] = (GetResponse.clientError 400 "Room name is required", []) ∧
    GET (some "a") [] = (GetResponse.okExists (hasRoom ([] : Registry) "a"), []) :=
  ⟨(C10_get_behavior none []).1 (Or.inl rfl),
   (C10_get_behavior (some "a") []).2 "a" rfl (by decide)⟩

end VideoChat
